import Mathlib

/-!
Shallow embedding of the questpath-backend progression engine, AI-document
validation, and rate limiter, with theorems checking the specification's
claims against the code.

Sources embedded:
- `app/models.py`   : the `LevelStatus` / `GoalStatus` enums and the
  `Level` fields that the progression engine reads and writes.
- `app/quizzes.py`  : `get_level_quiz` (topic gating) and
  `submit_level_quiz` (XP award, level completion, goal status, unlock
  cascade).
- `app/goals.py`    : the level-creation loop of `create_goal`.
- `app/ai_service.py` : the validation of AI roadmap and quiz documents.
- `app/rate_limiter.py` : `check_rate_limit` over a Redis counter.
-/

namespace QuestPath

/-- The `LevelStatus` enum from `app/models.py`. -/
inductive LevelStatus where
  | locked
  | unlocked
  | inProgress
  | completed
deriving DecidableEq, Repr

/-- The `GoalStatus` enum from `app/models.py`. -/
inductive GoalStatus where
  | notStarted
  | inProgress
  | completed
deriving DecidableEq, Repr

/-- One entry of a level's JSON `topics` array: `{"name": str, "completed": bool}`.
`completed` models `topic.get("completed", False)`: a missing key reads as
`false`. -/
structure Topic where
  name : String
  completed : Bool
deriving DecidableEq, Repr

/-- The fields of the `Level` row (`app/models.py`) that the progression
engine reads and writes.  `id` is the database surrogate key; `topics` is a
nullable JSON column, hence `Option`. -/
structure Level where
  id : Nat
  order : Nat
  title : String
  topics : Option (List Topic)
  xp_reward : Nat
  status : LevelStatus
deriving DecidableEq, Repr

/-- The state `submit_level_quiz` reads and writes for one request: the
caller's `total_exp`, the goal's status, and the roadmap's level rows
(`level.roadmap.goal` and `level.roadmap.levels`, pre-loaded via
`selectinload`). -/
structure QuizState where
  total_exp : Nat
  goalStatus : GoalStatus
  levels : List Level
deriving DecidableEq, Repr

/-- The JSON body returned by `submit_level_quiz`. -/
structure SubmitResponse where
  passed : Bool
  xp_earned : Nat
  next_level_unlocked : Bool
  message : String
deriving DecidableEq, Repr

/-- Writing `level.status = LevelStatus.COMPLETED` on the row with id `lid`: since the
ORM identity map aliases the fetched row into `roadmap.levels`, the
assignment is modelled as updating every list entry whose `id` matches. -/
def markCompleted (lid : Nat) (l : Level) : Level :=
  if l.id = lid then { l with status := LevelStatus.completed } else l

/-- Writing `next_level.status = LevelStatus.UNLOCKED` on the row with id `nid`,
modelled like `markCompleted`. -/
def markUnlocked (nid : Nat) (l : Level) : Level :=
  if l.id = nid then { l with status := LevelStatus.unlocked } else l

/-- The passed-branch of `submit_level_quiz` (`app/quizzes.py` lines
109-147), given the level row `lvl` found for `level_id`. -/
def submitPassed (s : QuizState) (lvl : Level) : SubmitResponse × QuizState :=
  let xp_earned := lvl.xp_reward
  let total' := s.total_exp + xp_earned
  let levels1 := s.levels.map (markCompleted lvl.id)
  let goal' := if levels1.all (fun l => l.status = LevelStatus.completed) then
    GoalStatus.completed else GoalStatus.inProgress
  match levels1.find? (fun l => l.order = lvl.order + 1) with
  | some nl =>
      if nl.status = LevelStatus.locked then
        ({ passed := true, xp_earned := xp_earned, next_level_unlocked := true,
           message := s!"Congratulations! You earned {xp_earned} XP and unlocked the next level!" },
         { total_exp := total', goalStatus := goal',
           levels := levels1.map (markUnlocked nl.id) })
      else
        ({ passed := true, xp_earned := xp_earned, next_level_unlocked := false,
           message := s!"Congratulations! You earned {xp_earned} XP!" },
         { total_exp := total', goalStatus := goal', levels := levels1 })
  | none =>
      ({ passed := true, xp_earned := xp_earned, next_level_unlocked := false,
         message := s!"Congratulations! You earned {xp_earned} XP!" },
       { total_exp := total', goalStatus := goal', levels := levels1 })

/-- The `submit_level_quiz` handler (`app/quizzes.py`).  The ownership-scoped query is
modelled as lookup by `id` among the caller's level rows; a miss is the 404
path (`.error`), which mutates nothing. -/
def submit_level_quiz (s : QuizState) (level_id : Nat) (passed : Bool) :
    Except String (SubmitResponse × QuizState) :=
  match s.levels.find? (fun l => l.id = level_id) with
  | none => Except.error "Level not found"
  | some lvl =>
      if passed then Except.ok (submitPassed s lvl)
      else Except.ok
        ({ passed := false, xp_earned := 0, next_level_unlocked := false,
           message := "You didn't pass this time. Review the topics and try again!" }, s)

/-- State reached by a sequence of `submit_level_quiz` calls with
`passed = true`; a 404 leaves the state unchanged. -/
def stepState (s : QuizState) (level_id : Nat) : QuizState :=
  match submit_level_quiz s level_id true with
  | Except.ok (_, s') => s'
  | Except.error _ => s

/-- Fold of passing submissions over a list of level ids. -/
def submitSeq (s : QuizState) : List Nat → QuizState
  | [] => s
  | i :: is => submitSeq (stepState s i) is

/-- The topic gate of `get_level_quiz` (`app/quizzes.py` lines 44-48):
`if level.topics and not all(topic.get("completed", False) for topic in level.topics)`.
A `None` or empty `topics` value is falsy, so the gate does not fire. -/
def topics_gate_denied (topics : Option (List Topic)) : Bool :=
  match topics with
  | none => false
  | some ts => !ts.isEmpty && !(ts.all fun t => t.completed)

/-- The lookup-and-gate prefix of `get_level_quiz` (`app/quizzes.py` lines
32-48): 404 when no owned level row matches, 403 when the topic gate fires,
otherwise quiz generation proceeds. -/
def get_level_quiz_check (levels : List Level) (level_id : Nat) : Except String Unit :=
  match levels.find? (fun l => l.id = level_id) with
  | none => Except.error "Level not found"
  | some level =>
      if topics_gate_denied level.topics then
        Except.error "Complete all topics before taking the quiz"
      else Except.ok ()

/-- One entry of `roadmap["levels"]` in the AI roadmap document.  `Option`
fields model the presence or absence of the JSON key. -/
structure RoadmapLevelDoc where
  order? : Option Nat
  title? : Option String
  description? : Option String
  topics? : Option (List Topic)
  xp_reward? : Option Nat
deriving DecidableEq, Repr

/-- The `roadmap` object of the AI roadmap document. -/
structure RoadmapObjDoc where
  name? : Option String
  levels? : Option (List RoadmapLevelDoc)
deriving DecidableEq, Repr

/-- The top-level AI roadmap document parsed from JSON. -/
structure RoadmapDoc where
  title? : Option String
  category? : Option String
  difficulty? : Option String
  roadmap? : Option RoadmapObjDoc
deriving DecidableEq, Repr

/-- The list `[key for key in required_keys if key not in roadmap_data]`
(`app/ai_service.py` lines 89-90). -/
def roadmapMissingKeys (d : RoadmapDoc) : List String :=
  (if d.title?.isNone then ["title"] else [])
    ++ (if d.category?.isNone then ["category"] else [])
    ++ (if d.difficulty?.isNone then ["difficulty"] else [])
    ++ (if d.roadmap?.isNone then ["roadmap"] else [])

/-- Missing keys of one level entry (`app/ai_service.py` lines 111-113). -/
def levelDocMissingKeys (ld : RoadmapLevelDoc) : List String :=
  (if ld.order?.isNone then ["order"] else [])
    ++ (if ld.title?.isNone then ["title"] else [])
    ++ (if ld.description?.isNone then ["description"] else [])
    ++ (if ld.topics?.isNone then ["topics"] else [])
    ++ (if ld.xp_reward?.isNone then ["xp_reward"] else [])

/-- The per-level loop of `generate_roadmap` validation (`app/ai_service.py`
lines 112-115): first level with a missing key raises, numbering from 1. -/
def checkLevelDocs : List RoadmapLevelDoc → Nat → Option String
  | [], _ => none
  | ld :: rest, i =>
      if levelDocMissingKeys ld ≠ [] then some s!"Level {i} missing required keys"
      else checkLevelDocs rest (i + 1)

/-- The validation performed by `generate_roadmap` on the parsed document
(`app/ai_service.py` lines 88-117), with the source's check order: required
top-level keys, `roadmap.name`, `roadmap.levels`, difficulty, non-empty
levels, then per-level required keys.  Note that nothing constrains the
`order` values of the levels. -/
def validate_roadmap_data (d : RoadmapDoc) : Except String RoadmapDoc :=
  if roadmapMissingKeys d ≠ [] then Except.error "AI response missing required keys"
  else
    let ro := d.roadmap?.getD { name? := none, levels? := none }
    if ro.name?.isNone then Except.error "Roadmap missing name field"
    else if ro.levels?.isNone then Except.error "Roadmap missing levels field"
    else if !(["beginner", "intermediate", "advanced"].contains (d.difficulty?.getD "")) then
      Except.error "Invalid difficulty"
    else
      let levels := ro.levels?.getD []
      if levels.isEmpty then Except.error "Roadmap must have at least one level"
      else
        match checkLevelDocs levels 1 with
        | some err => Except.error err
        | none => Except.ok d

/-- Step 4 of `create_goal` (`app/goals.py` lines 63-73): one `Level` row per
document entry, `status = UNLOCKED if order == 1 else LOCKED`.  The database
assigns the surrogate ids; they are modelled as the creation index + 1.  The
field reads `level_data["order"]` etc. are total only after
`validate_roadmap_data` succeeded, which guarantees every key is present;
`getD` supplies an arbitrary default for the unreachable missing case. -/
def create_goal_levels_from (idx : Nat) : List RoadmapLevelDoc → List Level
  | [] => []
  | ld :: rest =>
      { id := idx
        order := ld.order?.getD 0
        title := ld.title?.getD ""
        topics := ld.topics?
        xp_reward := ld.xp_reward?.getD 0
        status := if ld.order?.getD 0 = 1 then LevelStatus.unlocked else LevelStatus.locked }
        :: create_goal_levels_from (idx + 1) rest

/-- The level rows persisted for a whole document, ids starting at 1. -/
def create_goal_levels (docLevels : List RoadmapLevelDoc) : List Level :=
  create_goal_levels_from 1 docLevels

/-- One entry of a question's `options` array in the AI quiz document. -/
structure QuizOptionDoc where
  text : String
  value : String
deriving DecidableEq, Repr

/-- One entry of `questions` in the AI quiz document. -/
structure QuestionDoc where
  id? : Option Nat
  question? : Option String
  options? : Option (List QuizOptionDoc)
  correct_answer? : Option String
deriving DecidableEq, Repr

/-- The top-level AI quiz document parsed from JSON. -/
structure QuizDoc where
  questions? : Option (List QuestionDoc)
deriving DecidableEq, Repr

/-- Missing keys of one question (`app/ai_service.py` lines 213-215). -/
def questionMissingKeys (q : QuestionDoc) : List String :=
  (if q.id?.isNone then ["id"] else [])
    ++ (if q.question?.isNone then ["question"] else [])
    ++ (if q.options?.isNone then ["options"] else [])
    ++ (if q.correct_answer?.isNone then ["correct_answer"] else [])

/-- The per-question loop of `generate_quiz_for_level` validation
(`app/ai_service.py` lines 214-220): missing keys first, then exactly four
options; first violation raises, numbering from 1. -/
def checkQuestionDocs : List QuestionDoc → Nat → Option String
  | [], _ => none
  | q :: rest, i =>
      if questionMissingKeys q ≠ [] then some s!"Question {i} missing required keys"
      else if (q.options?.getD []).length ≠ 4 then
        some s!"Question {i} must have exactly 4 options"
      else checkQuestionDocs rest (i + 1)

/-- The validation performed by `generate_quiz_for_level` on the parsed
document (`app/ai_service.py` lines 205-222).  Note that `correct_answer` is
never compared against the options' `value` labels. -/
def validate_quiz_data (d : QuizDoc) : Except String QuizDoc :=
  match d.questions? with
  | none => Except.error "AI response missing questions field"
  | some qs =>
      if qs.length = 0 then Except.error "AI generated no questions"
      else
        match checkQuestionDocs qs 1 with
        | some err => Except.error err
        | none => Except.ok d

/-- A Redis counter key `rate_limit:{ip}:{key}`, modelled as the pair. -/
abbrev RedisKey := String × String

/-- The Redis keyspace relevant to rate limiting: each live key carries its
counter value and its absolute expiry instant (seconds). -/
abbrev RedisStore := List (RedisKey × (Nat × Nat))

/-- Association-list lookup of a key's raw (count, expiry) entry. -/
def redisLookup : RedisStore → RedisKey → Option (Nat × Nat)
  | [], _ => none
  | (k, v) :: rest, key => if key = k then some v else redisLookup rest key

/-- Association-list insert-or-replace of a key's entry. -/
def redisSet : RedisStore → RedisKey → Nat × Nat → RedisStore
  | [], key, v => [(key, v)]
  | (k, w) :: rest, key, v =>
      if key = k then (key, v) :: rest else (k, w) :: redisSet rest key v

/-- Reading `redis_client.get(cache_key)` at instant `now`: an expired key reads as
absent. -/
def redis_get (st : RedisStore) (key : RedisKey) (now : Nat) : Option Nat :=
  match redisLookup st key with
  | some cv => if now < cv.2 then some cv.1 else none
  | none => none

/-- The pipeline `INCR` + `EXPIRE window` at instant `now`: `INCR` restarts an
absent or expired key at 1, and `EXPIRE` resets the TTL to the full window. -/
def redis_incr_expire (st : RedisStore) (key : RedisKey) (window now : Nat) : RedisStore :=
  match redisLookup st key with
  | some cv =>
      if now < cv.2 then redisSet st key (cv.1 + 1, now + window)
      else redisSet st key (1, now + window)
  | none => redisSet st key (1, now + window)

/-- The `check_rate_limit` helper (`app/rate_limiter.py` lines 15-48) at instant `now`:
read the counter for `(ip, action)`; reject without touching it once it has
reached `limit`, otherwise increment it and reset its expiry.  The Redis
fail-open path (store errors swallowed, request allowed) is outside this
model, which assumes the store responds. -/
def check_rate_limit (st : RedisStore) (ip action : String) (limit window now : Nat) :
    Bool × RedisStore :=
  let cache_key := (ip, action)
  match redis_get st cache_key now with
  | some count =>
      if limit ≤ count then (false, st)
      else (true, redis_incr_expire st cache_key window now)
  | none => (true, redis_incr_expire st cache_key window now)

/-- The roadmap state of the C1 scenario: levels with orders `[1,2,3]`,
level 1 unlocked, levels 2 and 3 locked, goal not started. -/
def c1State : QuizState :=
  { total_exp := 0
    goalStatus := GoalStatus.notStarted
    levels :=
      [ { id := 1, order := 1, title := "L1", topics := none, xp_reward := 100,
          status := LevelStatus.unlocked }
      , { id := 2, order := 2, title := "L2", topics := none, xp_reward := 150,
          status := LevelStatus.locked }
      , { id := 3, order := 3, title := "L3", topics := none, xp_reward := 200,
          status := LevelStatus.locked } ] }

/-- A roadmap document level entry with order 1, used to probe the
validation. -/
def c4LevelA : RoadmapLevelDoc :=
  { order? := some 1, title? := some "Basics", description? := some "Start here",
    topics? := some [⟨"intro", false⟩], xp_reward? := some 100 }

/-- A roadmap document level entry with order 3: together with `c4LevelA` the
orders have a gap. -/
def c4LevelB : RoadmapLevelDoc :=
  { order? := some 3, title? := some "Advanced", description? := some "Go deeper",
    topics? := some [⟨"depth", false⟩], xp_reward? := some 200 }

/-- A complete, well-keyed roadmap document whose level orders are [1, 3]. -/
def c4Doc : RoadmapDoc :=
  { title? := some "Learn X", category? := some "Programming",
    difficulty? := some "beginner",
    roadmap? := some { name? := some "X path", levels? := some [c4LevelA, c4LevelB] } }

/-- Four well-formed quiz options labelled A-D. -/
def c5Options : List QuizOptionDoc :=
  [⟨"first", "A"⟩, ⟨"second", "B"⟩, ⟨"third", "C"⟩, ⟨"fourth", "D"⟩]

/-- A question whose `correct_answer` is "Z", matching none of its options'
labels. -/
def c5Question : QuestionDoc :=
  { id? := some 1, question? := some "Which one?", options? := some c5Options,
    correct_answer? := some "Z" }

/-- A quiz document containing only `c5Question`. -/
def c5Doc : QuizDoc := { questions? := some [c5Question] }

/-- C1: on every roadmap whose levels have orders [1,2,3] with level 1
`unlocked` and levels 2 and 3 `locked` — whatever the ids, titles, topics,
XP rewards, the user's `total_exp` and the goal's current status —
`submit_level_quiz` on level 1 with `passed = true` sets level 1 to
`completed`, level 2 to `unlocked` (reporting `next_level_unlocked = true`),
leaves level 3 `locked`, and sets the goal's status to `in_progress`. -/
theorem submit_unlock_cascade_c1 (s : QuizState) (l1 l2 l3 : Level)
    (hlev : s.levels = [l1, l2, l3])
    (hnodup : (s.levels.map Level.id).Nodup)
    (ho1 : l1.order = 1) (ho2 : l2.order = 2) (_ho3 : l3.order = 3)
    (_hs1 : l1.status = LevelStatus.unlocked)
    (hs2 : l2.status = LevelStatus.locked)
    (hs3 : l3.status = LevelStatus.locked) :
    ∃ r s', submit_level_quiz s l1.id true = Except.ok (r, s') ∧
      s'.levels.map Level.status
        = [LevelStatus.completed, LevelStatus.unlocked, LevelStatus.locked] ∧
      s'.goalStatus = GoalStatus.inProgress ∧
      r.next_level_unlocked = true := by
  have hn : l1.id ≠ l2.id ∧ l1.id ≠ l3.id ∧ l2.id ≠ l3.id := by
    rw [hlev] at hnodup
    simp [List.nodup_cons, List.mem_cons] at hnodup
    tauto
  obtain ⟨n12, n13, n23⟩ := hn
  have hfind : s.levels.find? (fun l => l.id = l1.id) = some l1 := by
    rw [hlev]; simp [List.find?]
  have h1 : submit_level_quiz s l1.id true = Except.ok (submitPassed s l1) := by
    unfold submit_level_quiz; rw [hfind]; rfl
  have hmc1 : markCompleted l1.id l1 = { l1 with status := LevelStatus.completed } := by
    unfold markCompleted; simp
  have hmc2 : markCompleted l1.id l2 = l2 := by
    unfold markCompleted; rw [if_neg n12.symm]
  have hmc3 : markCompleted l1.id l3 = l3 := by
    unfold markCompleted; rw [if_neg n13.symm]
  have hlevels1 : s.levels.map (markCompleted l1.id)
      = [{ l1 with status := LevelStatus.completed }, l2, l3] := by
    rw [hlev]; simp [hmc1, hmc2, hmc3]
  have hallF : ([{ l1 with status := LevelStatus.completed }, l2, l3].all
      (fun l => l.status = LevelStatus.completed)) = false := by
    simp [hs2]
  have hfind2 : ([{ l1 with status := LevelStatus.completed }, l2, l3].find?
      (fun l => l.order = l1.order + 1)) = some l2 := by
    have hno : ({ l1 with status := LevelStatus.completed } : Level).order
        = l1.order := rfl
    simp [List.find?, hno, ho1, ho2]
  have hmu1 : markUnlocked l2.id ({ l1 with status := LevelStatus.completed } : Level)
      = { l1 with status := LevelStatus.completed } := by
    unfold markUnlocked; rw [if_neg]; exact n12
  have hmu2 : markUnlocked l2.id l2 = { l2 with status := LevelStatus.unlocked } := by
    unfold markUnlocked; simp
  have hmu3 : markUnlocked l2.id l3 = l3 := by
    unfold markUnlocked; rw [if_neg n23.symm]
  have hrun : submitPassed s l1 =
      ({ passed := true, xp_earned := l1.xp_reward, next_level_unlocked := true,
         message := s!"Congratulations! You earned {l1.xp_reward} XP and unlocked the next level!" },
       { total_exp := s.total_exp + l1.xp_reward, goalStatus := GoalStatus.inProgress,
         levels := [{ l1 with status := LevelStatus.completed },
                    { l2 with status := LevelStatus.unlocked }, l3] }) := by
    unfold submitPassed
    simp only [hlevels1, hfind2, hallF, hs2, List.map_cons, List.map_nil,
      hmu1, hmu2, hmu3]
    simp
  refine ⟨(submitPassed s l1).1, (submitPassed s l1).2, h1, ?_, ?_, ?_⟩
  · rw [hrun]
    simp [hs3]
  · rw [hrun]
  · rw [hrun]

theorem submit_unlock_cascade_c1_witness :
    c1State.levels =
      [ { id := 1, order := 1, title := "L1", topics := none, xp_reward := 100,
          status := LevelStatus.unlocked }
      , { id := 2, order := 2, title := "L2", topics := none, xp_reward := 150,
          status := LevelStatus.locked }
      , { id := 3, order := 3, title := "L3", topics := none, xp_reward := 200,
          status := LevelStatus.locked } ] ∧
    (∃ r s', submit_level_quiz c1State 1 true = Except.ok (r, s') ∧
      s'.levels.map Level.status
        = [LevelStatus.completed, LevelStatus.unlocked, LevelStatus.locked] ∧
      s'.goalStatus = GoalStatus.inProgress ∧
      r.next_level_unlocked = true) :=
  ⟨by rfl,
   submit_unlock_cascade_c1 c1State
     { id := 1, order := 1, title := "L1", topics := none, xp_reward := 100,
       status := LevelStatus.unlocked }
     { id := 2, order := 2, title := "L2", topics := none, xp_reward := 150,
       status := LevelStatus.locked }
     { id := 3, order := 3, title := "L3", topics := none, xp_reward := 200,
       status := LevelStatus.locked }
     (by rfl) (by decide) (by rfl) (by rfl) (by rfl) (by rfl) (by rfl) (by rfl)⟩

theorem markCompleted_id (i : Nat) (l : Level) : (markCompleted i l).id = l.id := by
  unfold markCompleted; split <;> rfl

theorem markCompleted_order (i : Nat) (l : Level) : (markCompleted i l).order = l.order := by
  unfold markCompleted; split <;> rfl

theorem markUnlocked_id (i : Nat) (l : Level) : (markUnlocked i l).id = l.id := by
  unfold markUnlocked; split <;> rfl

theorem find?_map_pres (p : Level → Bool) (f : Level → Level)
    (hp : ∀ l, p (f l) = p l) (ls : List Level) :
    (ls.map f).find? p = (ls.find? p).map f := by
  rw [List.find?_map]
  have hc : p ∘ f = p := funext hp
  rw [hc]

theorem mem_markCompleted_completed {i : Nat} {x : Level} {ls : List Level}
    (hx : x ∈ ls.map (markCompleted i)) (hid : x.id = i) :
    x.status = LevelStatus.completed := by
  rcases List.mem_map.mp hx with ⟨l, _, rfl⟩
  unfold markCompleted at hid ⊢
  by_cases h : l.id = i
  · simp [h]
  · simp [h] at hid

theorem submitPassed_total_exp (s : QuizState) (lvl : Level) :
    (submitPassed s lvl).2.total_exp = s.total_exp + lvl.xp_reward := by
  unfold submitPassed
  simp only []
  cases h : (s.levels.map (markCompleted lvl.id)).find? (fun l => l.order = lvl.order + 1) with
  | none => rfl
  | some nl => by_cases hs : nl.status = LevelStatus.locked <;> simp [h, hs]

theorem submitPassed_xp_earned (s : QuizState) (lvl : Level) :
    (submitPassed s lvl).1.xp_earned = lvl.xp_reward := by
  unfold submitPassed
  simp only []
  cases h : (s.levels.map (markCompleted lvl.id)).find? (fun l => l.order = lvl.order + 1) with
  | none => rfl
  | some nl => by_cases hs : nl.status = LevelStatus.locked <;> simp [h, hs]

theorem submitPassed_find?_id (s : QuizState) (i : Nat) (lvl : Level)
    (h : s.levels.find? (fun l => l.id = i) = some lvl) :
    (submitPassed s lvl).2.levels.find? (fun l => l.id = i)
      = some { lvl with status := LevelStatus.completed } := by
  have hid : lvl.id = i := by simpa using List.find?_some h
  have hpres : ∀ l, (fun l : Level => decide (l.id = i)) (markCompleted lvl.id l)
      = (fun l : Level => decide (l.id = i)) l := fun l => by simp [markCompleted_id]
  have h1 : (s.levels.map (markCompleted lvl.id)).find? (fun l => l.id = i)
      = some (markCompleted lvl.id lvl) := by
    rw [find?_map_pres _ _ hpres, h]; rfl
  have hmc : markCompleted lvl.id lvl = { lvl with status := LevelStatus.completed } := by
    unfold markCompleted; simp
  unfold submitPassed
  simp only []
  cases hfind : (s.levels.map (markCompleted lvl.id)).find? (fun l => l.order = lvl.order + 1) with
  | none => simpa [hmc] using h1
  | some nl =>
      by_cases hs : nl.status = LevelStatus.locked
      · have hnl_ne : nl.id ≠ i := by
          intro heq
          have hmem : nl ∈ s.levels.map (markCompleted lvl.id) := List.mem_of_find?_eq_some hfind
          have hcomp : nl.status = LevelStatus.completed :=
            mem_markCompleted_completed hmem (heq.trans hid.symm)
          rw [hs] at hcomp
          exact LevelStatus.noConfusion hcomp
        have hpres2 : ∀ l, (fun l : Level => decide (l.id = i)) (markUnlocked nl.id l)
            = (fun l : Level => decide (l.id = i)) l := fun l => by simp [markUnlocked_id]
        have h2 : ((s.levels.map (markCompleted lvl.id)).map (markUnlocked nl.id)).find?
              (fun l => l.id = i)
            = some (markUnlocked nl.id (markCompleted lvl.id lvl)) := by
          rw [find?_map_pres _ _ hpres2, h1]; rfl
        have h3 : markUnlocked nl.id (markCompleted lvl.id lvl)
            = { lvl with status := LevelStatus.completed } := by
          rw [hmc]; unfold markUnlocked
          rw [if_neg]
          intro hcond
          exact hnl_ne (hid ▸ hcond.symm)
        simpa [hfind, hs, h3] using h2
      · simpa [hfind, hs, hmc] using h1

theorem submitPassed_goal_iff (s : QuizState) (lvl : Level) :
    ((submitPassed s lvl).2.goalStatus = GoalStatus.completed
      ↔ (submitPassed s lvl).2.levels.all
          (fun l => l.status = LevelStatus.completed) = true) := by
  unfold submitPassed
  simp only []
  cases hfind : (s.levels.map (markCompleted lvl.id)).find? (fun l => l.order = lvl.order + 1) with
  | none =>
      by_cases hall : (s.levels.map (markCompleted lvl.id)).all
          (fun l => l.status = LevelStatus.completed) = true
      · simp [hall]
      · simp [hall]
  | some nl =>
      by_cases hs : nl.status = LevelStatus.locked
      · have hnl_mem : nl ∈ s.levels.map (markCompleted lvl.id) :=
          List.mem_of_find?_eq_some hfind
        have hall : (s.levels.map (markCompleted lvl.id)).all
            (fun l => l.status = LevelStatus.completed) = false := by
          refine List.all_eq_false.mpr ⟨nl, hnl_mem, ?_⟩
          simp [hs]
        have hunl : (markUnlocked nl.id nl).status = LevelStatus.unlocked := by
          unfold markUnlocked; simp
        simp [hfind, hs, hall]
        rcases List.mem_map.mp hnl_mem with ⟨x, hx, hxe⟩
        exact ⟨x, hx, by rw [hxe]; simp [hunl]⟩
      · by_cases hall : (s.levels.map (markCompleted lvl.id)).all
            (fun l => l.status = LevelStatus.completed) = true
        · simp [hfind, hs, hall]
        · simp [hfind, hs, hall]

theorem find?_id_of_nodup (ls : List Level) (m : Level)
    (hn : (ls.map Level.id).Nodup) (hm : m ∈ ls) :
    ls.find? (fun l => l.id = m.id) = some m := by
  cases hfind : ls.find? (fun l => l.id = m.id) with
  | none =>
      exfalso
      have := List.find?_eq_none.mp hfind m hm
      simp at this
  | some x =>
      have hx : x ∈ ls := List.mem_of_find?_eq_some hfind
      have hxid : x.id = m.id := by simpa using List.find?_some hfind
      rw [List.inj_on_of_nodup_map hn hx hm hxid]

/-- C10: a `SubmitQuiz` call with `passed = false` on an owned level mutates
nothing — the returned state is the input state — and the response carries
`xp_earned = 0`, `next_level_unlocked = false` and the failure-encouragement
message. -/
theorem submit_failed_frame_c10 (s : QuizState) (level_id : Nat) (lvl : Level)
    (h : s.levels.find? (fun l => l.id = level_id) = some lvl) :
    submit_level_quiz s level_id false =
      Except.ok
        ({ passed := false, xp_earned := 0, next_level_unlocked := false,
           message := "You didn't pass this time. Review the topics and try again!" }, s) := by
  unfold submit_level_quiz
  rw [h]
  rfl

theorem submit_failed_frame_c10_witness :
    c1State.levels.find? (fun l => l.id = 1) = some
        { id := 1, order := 1, title := "L1", topics := none, xp_reward := 100,
          status := LevelStatus.unlocked } ∧
    submit_level_quiz c1State 1 false =
      Except.ok
        ({ passed := false, xp_earned := 0, next_level_unlocked := false,
           message := "You didn't pass this time. Review the topics and try again!" },
         c1State) :=
  ⟨by rfl, submit_failed_frame_c10 c1State 1 _ (by rfl)⟩

theorem stepState_total_exp_le (s : QuizState) (i : Nat) :
    s.total_exp ≤ (stepState s i).total_exp := by
  unfold stepState submit_level_quiz
  cases h : s.levels.find? (fun l => l.id = i) with
  | none => simp
  | some lvl =>
      simp only [if_true]
      rw [submitPassed_total_exp]
      exact Nat.le_add_right _ _

/-- C8: `total_exp` is non-decreasing across any sequence of passing
`SubmitQuiz` calls, whatever levels are submitted and however often. -/
theorem total_exp_monotone_c8 (s : QuizState) (ids : List Nat) :
    s.total_exp ≤ (submitSeq s ids).total_exp := by
  induction ids generalizing s with
  | nil => exact Nat.le_refl _
  | cons i is ih =>
      simp only [submitSeq]
      exact Nat.le_trans (stepState_total_exp_le s i) (ih (stepState s i))

/-- C2: every passing `SubmitQuiz` call on an owned level adds exactly
`xp_reward` to `total_exp`, with no completion guard: a second passing
submission on the same, now-completed level succeeds again, adds `xp_reward`
a second time, and leaves the level's status at `completed`. -/
theorem submit_reawards_xp_c2 (s : QuizState) (i : Nat) (lvl : Level)
    (h : s.levels.find? (fun l => l.id = i) = some lvl) :
    ∃ r1 s1 r2 s2,
      submit_level_quiz s i true = Except.ok (r1, s1) ∧
      r1.xp_earned = lvl.xp_reward ∧
      s1.total_exp = s.total_exp + lvl.xp_reward ∧
      s1.levels.find? (fun l => l.id = i)
        = some { lvl with status := LevelStatus.completed } ∧
      submit_level_quiz s1 i true = Except.ok (r2, s2) ∧
      r2.xp_earned = lvl.xp_reward ∧
      s2.total_exp = s.total_exp + 2 * lvl.xp_reward ∧
      s2.levels.find? (fun l => l.id = i)
        = some { lvl with status := LevelStatus.completed } := by
  have h1 : submit_level_quiz s i true = Except.ok (submitPassed s lvl) := by
    unfold submit_level_quiz; rw [h]; rfl
  have hf1 : (submitPassed s lvl).2.levels.find? (fun l => l.id = i)
      = some { lvl with status := LevelStatus.completed } :=
    submitPassed_find?_id s i lvl h
  have h2 : submit_level_quiz (submitPassed s lvl).2 i true
      = Except.ok (submitPassed (submitPassed s lvl).2
          { lvl with status := LevelStatus.completed }) := by
    unfold submit_level_quiz; rw [hf1]; rfl
  have hf2 := submitPassed_find?_id (submitPassed s lvl).2 i
    { lvl with status := LevelStatus.completed } hf1
  have hx2 : (submitPassed (submitPassed s lvl).2
      { lvl with status := LevelStatus.completed }).2.total_exp
      = s.total_exp + 2 * lvl.xp_reward := by
    rw [submitPassed_total_exp, submitPassed_total_exp]
    show s.total_exp + lvl.xp_reward + lvl.xp_reward = s.total_exp + 2 * lvl.xp_reward
    omega
  exact ⟨(submitPassed s lvl).1, (submitPassed s lvl).2,
    (submitPassed (submitPassed s lvl).2 { lvl with status := LevelStatus.completed }).1,
    (submitPassed (submitPassed s lvl).2 { lvl with status := LevelStatus.completed }).2,
    h1, submitPassed_xp_earned s lvl, submitPassed_total_exp s lvl, hf1,
    h2, submitPassed_xp_earned _ _, hx2, hf2⟩

theorem submit_reawards_xp_c2_witness :
    c1State.levels.find? (fun l => l.id = 1) = some
        { id := 1, order := 1, title := "L1", topics := none, xp_reward := 100,
          status := LevelStatus.unlocked } ∧
    (∃ r1 s1 r2 s2,
      submit_level_quiz c1State 1 true = Except.ok (r1, s1) ∧
      r1.xp_earned = 100 ∧
      s1.total_exp = c1State.total_exp + 100 ∧
      s1.levels.find? (fun l => l.id = 1)
        = some { id := 1, order := 1, title := "L1", topics := none, xp_reward := 100,
                 status := LevelStatus.completed } ∧
      submit_level_quiz s1 1 true = Except.ok (r2, s2) ∧
      r2.xp_earned = 100 ∧
      s2.total_exp = c1State.total_exp + 2 * 100 ∧
      s2.levels.find? (fun l => l.id = 1)
        = some { id := 1, order := 1, title := "L1", topics := none, xp_reward := 100,
                 status := LevelStatus.completed }) :=
  ⟨by rfl, submit_reawards_xp_c2 c1State 1 _ (by rfl)⟩

/-- C3: `submit_level_quiz` never reads the target level's status: a passing
submission on an owned level that is still `locked` completes it, awards its
`xp_reward`, and unlocks the locked sibling at `order + 1`, reporting
`next_level_unlocked = true`. -/
theorem submit_ignores_status_c3 (s : QuizState) (i : Nat) (lvl m : Level)
    (hnodup : (s.levels.map Level.id).Nodup)
    (h : s.levels.find? (fun l => l.id = i) = some lvl)
    (_hlocked : lvl.status = LevelStatus.locked)
    (hm : s.levels.find? (fun l => l.order = lvl.order + 1) = some m)
    (hmlocked : m.status = LevelStatus.locked) :
    ∃ r s', submit_level_quiz s i true = Except.ok (r, s') ∧
      r.xp_earned = lvl.xp_reward ∧
      s'.total_exp = s.total_exp + lvl.xp_reward ∧
      s'.levels.find? (fun l => l.id = i)
        = some { lvl with status := LevelStatus.completed } ∧
      r.next_level_unlocked = true ∧
      s'.levels.find? (fun l => l.id = m.id)
        = some { m with status := LevelStatus.unlocked } := by
  have hid : lvl.id = i := by simpa using List.find?_some h
  have hlm : lvl ∈ s.levels := List.mem_of_find?_eq_some h
  have hmm : m ∈ s.levels := List.mem_of_find?_eq_some hm
  have hmo : m.order = lvl.order + 1 := by simpa using List.find?_some hm
  have hmne : m ≠ lvl := by intro e; rw [e] at hmo; omega
  have hmid : m.id ≠ lvl.id := fun e => hmne (List.inj_on_of_nodup_map hnodup hmm hlm e)
  have hmcm : markCompleted lvl.id m = m := by
    unfold markCompleted; rw [if_neg hmid]
  have hfind1m : (s.levels.map (markCompleted lvl.id)).find?
      (fun l => l.order = lvl.order + 1) = some m := by
    rw [find?_map_pres _ _ (fun l => by simp [markCompleted_order]), hm]
    simp [hmcm]
  have h1 : submit_level_quiz s i true = Except.ok (submitPassed s lvl) := by
    unfold submit_level_quiz; rw [h]; rfl
  have hlevels : (submitPassed s lvl).2.levels
      = (s.levels.map (markCompleted lvl.id)).map (markUnlocked m.id) := by
    unfold submitPassed
    simp only [hfind1m]
    simp [hmlocked]
  have hunlocked : (submitPassed s lvl).1.next_level_unlocked = true := by
    unfold submitPassed
    simp only [hfind1m]
    simp [hmlocked]
  have hfm0 : s.levels.find? (fun l => l.id = m.id) = some m :=
    find?_id_of_nodup s.levels m hnodup hmm
  have hfm1 : (s.levels.map (markCompleted lvl.id)).find? (fun l => l.id = m.id)
      = some m := by
    rw [find?_map_pres _ _ (fun l => by simp [markCompleted_id]), hfm0]
    simp [hmcm]
  have hfm2 : ((s.levels.map (markCompleted lvl.id)).map (markUnlocked m.id)).find?
      (fun l => l.id = m.id) = some (markUnlocked m.id m) := by
    rw [find?_map_pres _ _ (fun l => by simp [markUnlocked_id]), hfm1]
    rfl
  have hmu : markUnlocked m.id m = { m with status := LevelStatus.unlocked } := by
    unfold markUnlocked; simp
  refine ⟨(submitPassed s lvl).1, (submitPassed s lvl).2, h1,
    submitPassed_xp_earned s lvl, submitPassed_total_exp s lvl,
    submitPassed_find?_id s i lvl h, hunlocked, ?_⟩
  rw [hlevels, hfm2, hmu]

theorem submit_ignores_status_c3_witness :
    (([ { id := 1, order := 1, title := "L1", topics := none, xp_reward := 100,
          status := LevelStatus.locked }
      , { id := 2, order := 2, title := "L2", topics := none, xp_reward := 150,
          status := LevelStatus.locked } ] : List Level).map Level.id).Nodup ∧
    (∃ r s', submit_level_quiz
        { total_exp := 0, goalStatus := GoalStatus.notStarted,
          levels :=
            [ { id := 1, order := 1, title := "L1", topics := none, xp_reward := 100,
                status := LevelStatus.locked }
            , { id := 2, order := 2, title := "L2", topics := none, xp_reward := 150,
                status := LevelStatus.locked } ] } 1 true = Except.ok (r, s') ∧
      r.xp_earned = 100 ∧
      s'.total_exp = 0 + 100 ∧
      s'.levels.find? (fun l => l.id = 1)
        = some { id := 1, order := 1, title := "L1", topics := none, xp_reward := 100,
                 status := LevelStatus.completed } ∧
      r.next_level_unlocked = true ∧
      s'.levels.find? (fun l => l.id = 2)
        = some { id := 2, order := 2, title := "L2", topics := none, xp_reward := 150,
                 status := LevelStatus.unlocked }) :=
  ⟨by decide,
   submit_ignores_status_c3
     { total_exp := 0, goalStatus := GoalStatus.notStarted,
       levels :=
         [ { id := 1, order := 1, title := "L1", topics := none, xp_reward := 100,
             status := LevelStatus.locked }
         , { id := 2, order := 2, title := "L2", topics := none, xp_reward := 150,
             status := LevelStatus.locked } ] } 1
     { id := 1, order := 1, title := "L1", topics := none, xp_reward := 100,
       status := LevelStatus.locked }
     { id := 2, order := 2, title := "L2", topics := none, xp_reward := 150,
       status := LevelStatus.locked }
     (by decide) (by rfl) (by rfl) (by rfl) (by rfl)⟩

theorem stepState_inv (s : QuizState) (i : Nat)
    (hinv : s.goalStatus = GoalStatus.completed →
      s.levels.all (fun l => l.status = LevelStatus.completed) = true) :
    (stepState s i).goalStatus = GoalStatus.completed →
      (stepState s i).levels.all (fun l => l.status = LevelStatus.completed) = true := by
  unfold stepState submit_level_quiz
  cases h : s.levels.find? (fun l => l.id = i) with
  | none => simpa using hinv
  | some lvl =>
      simp only [if_true]
      exact (submitPassed_goal_iff s lvl).mp

/-- C6: across any sequence of passing submissions from a state whose goal is
not yet marked completed (or is completed with every level completed), the
goal is completed only when all levels are completed; and immediately after
any successful passing submission, the goal's status is `completed` exactly
when every level of the roadmap is `completed`. -/
theorem goal_completion_c6 (s : QuizState) (ids : List Nat)
    (hinv : s.goalStatus = GoalStatus.completed →
      s.levels.all (fun l => l.status = LevelStatus.completed) = true) :
    ((submitSeq s ids).goalStatus = GoalStatus.completed →
        (submitSeq s ids).levels.all (fun l => l.status = LevelStatus.completed) = true) ∧
    (∀ i r s', submit_level_quiz (submitSeq s ids) i true = Except.ok (r, s') →
      (s'.goalStatus = GoalStatus.completed ↔
        s'.levels.all (fun l => l.status = LevelStatus.completed) = true)) := by
  constructor
  · induction ids generalizing s with
    | nil => exact hinv
    | cons i is ih =>
        simp only [submitSeq]
        exact ih (stepState s i) (stepState_inv s i hinv)
  · intro i r s' hok
    unfold submit_level_quiz at hok
    cases h : (submitSeq s ids).levels.find? (fun l => l.id = i) with
    | none => rw [h] at hok; exact absurd hok (by simp)
    | some lvl =>
        rw [h] at hok
        simp only [if_true, Except.ok.injEq] at hok
        have hs' : s' = (submitPassed (submitSeq s ids) lvl).2 := by
          rw [hok]
        rw [hs']
        exact submitPassed_goal_iff (submitSeq s ids) lvl

theorem goal_completion_c6_witness :
    (c1State.goalStatus = GoalStatus.completed →
      c1State.levels.all (fun l => l.status = LevelStatus.completed) = true) ∧
    (((submitSeq c1State [1, 2]).goalStatus = GoalStatus.completed →
        (submitSeq c1State [1, 2]).levels.all
          (fun l => l.status = LevelStatus.completed) = true) ∧
      (∀ i r s', submit_level_quiz (submitSeq c1State [1, 2]) i true = Except.ok (r, s') →
        (s'.goalStatus = GoalStatus.completed ↔
          s'.levels.all (fun l => l.status = LevelStatus.completed) = true))) :=
  ⟨by decide, goal_completion_c6 c1State [1, 2] (by decide)⟩

theorem topics_gate_denied_iff (topics : Option (List Topic)) :
    topics_gate_denied topics = true ↔
      ∃ ts, topics = some ts ∧ ∃ t ∈ ts, t.completed = false := by
  cases topics with
  | none => simp [topics_gate_denied]
  | some ts =>
      simp only [topics_gate_denied, Bool.and_eq_true, Bool.not_eq_true',
        Option.some.injEq]
      constructor
      · rintro ⟨hne, hall⟩
        rcases List.all_eq_false.mp hall with ⟨t, ht, hf⟩
        exact ⟨ts, rfl, t, ht, by simpa using hf⟩
      · rintro ⟨ts', he, t, ht, hf⟩
        cases he
        refine ⟨?_, List.all_eq_false.mpr ⟨t, ht, by simp [hf]⟩⟩
        rw [List.isEmpty_eq_false]
        exact List.ne_nil_of_mem ht

/-- C7: for an owned level, `get_level_quiz` answers 403 ("complete all
topics first") exactly when some topic of the level is not completed, and
proceeds to quiz generation exactly when every topic is completed — including
vacuously, when the topic list is empty or absent. -/
theorem quiz_topic_gate_c7 (levels : List Level) (level_id : Nat) (lvl : Level)
    (h : levels.find? (fun l => l.id = level_id) = some lvl) :
    (get_level_quiz_check levels level_id
        = Except.error "Complete all topics before taking the quiz"
      ↔ ∃ ts, lvl.topics = some ts ∧ ∃ t ∈ ts, t.completed = false) ∧
    (get_level_quiz_check levels level_id = Except.ok ()
      ↔ ∀ ts, lvl.topics = some ts → ∀ t ∈ ts, t.completed = true) := by
  unfold get_level_quiz_check
  rw [h]
  show ((if topics_gate_denied lvl.topics = true then
          Except.error "Complete all topics before taking the quiz"
        else Except.ok ())
      = Except.error "Complete all topics before taking the quiz" ↔ _) ∧
    ((if topics_gate_denied lvl.topics = true then
          Except.error "Complete all topics before taking the quiz"
        else Except.ok ())
      = Except.ok () ↔ _)
  by_cases hg : topics_gate_denied lvl.topics = true
  · rw [if_pos hg]
    constructor
    · simp only [true_iff]
      exact (topics_gate_denied_iff _).mp hg
    · simp only [iff_false, reduceCtorEq, false_iff]
      rcases (topics_gate_denied_iff _).mp hg with ⟨ts, hts, t, ht, hf⟩
      intro hall
      have := hall ts hts t ht
      rw [this] at hf
      cases hf
  · rw [if_neg hg]
    have hng : ¬ ∃ ts, lvl.topics = some ts ∧ ∃ t ∈ ts, t.completed = false :=
      fun he => hg ((topics_gate_denied_iff _).mpr he)
    constructor
    · simp only [reduceCtorEq, false_iff]
      exact hng
    · simp only [true_iff]
      intro ts hts t ht
      by_contra hc
      exact hng ⟨ts, hts, t, ht, by simpa using hc⟩

theorem quiz_topic_gate_c7_witness :
    (([ { id := 7, order := 1, title := "T", topics := some [⟨"a", true⟩, ⟨"b", false⟩],
          xp_reward := 100, status := LevelStatus.unlocked } ] : List Level).find?
        (fun l => l.id = 7)
      = some { id := 7, order := 1, title := "T", topics := some [⟨"a", true⟩, ⟨"b", false⟩],
               xp_reward := 100, status := LevelStatus.unlocked }) ∧
    ((get_level_quiz_check
          [ { id := 7, order := 1, title := "T", topics := some [⟨"a", true⟩, ⟨"b", false⟩],
              xp_reward := 100, status := LevelStatus.unlocked } ] 7
        = Except.error "Complete all topics before taking the quiz"
      ↔ ∃ ts, (some [⟨"a", true⟩, ⟨"b", false⟩] : Option (List Topic)) = some ts ∧
          ∃ t ∈ ts, t.completed = false) ∧
     (get_level_quiz_check
          [ { id := 7, order := 1, title := "T", topics := some [⟨"a", true⟩, ⟨"b", false⟩],
              xp_reward := 100, status := LevelStatus.unlocked } ] 7
        = Except.ok ()
      ↔ ∀ ts, (some [⟨"a", true⟩, ⟨"b", false⟩] : Option (List Topic)) = some ts →
          ∀ t ∈ ts, t.completed = true)) :=
  ⟨by rfl,
   quiz_topic_gate_c7
     [ { id := 7, order := 1, title := "T", topics := some [⟨"a", true⟩, ⟨"b", false⟩],
         xp_reward := 100, status := LevelStatus.unlocked } ] 7
     { id := 7, order := 1, title := "T", topics := some [⟨"a", true⟩, ⟨"b", false⟩],
       xp_reward := 100, status := LevelStatus.unlocked }
     (by rfl)⟩

theorem check_rate_limit_live (ip action : String) (c expiry limit window t : Nat)
    (hlive : t < expiry) (hc : c < limit) :
    check_rate_limit [((ip, action), (c, expiry))] ip action limit window t
      = (true, [((ip, action), (c + 1, t + window))]) := by
  unfold check_rate_limit redis_get redis_incr_expire
  simp [redisLookup, redisSet, hlive, Nat.not_le.mpr hc]

theorem check_rate_limit_reject (ip action : String) (c expiry limit window t : Nat)
    (hlive : t < expiry) (hc : limit ≤ c) :
    check_rate_limit [((ip, action), (c, expiry))] ip action limit window t
      = (false, [((ip, action), (c, expiry))]) := by
  unfold check_rate_limit redis_get
  simp [redisLookup, hlive, hc]

theorem check_rate_limit_fresh_action (ip action act2 : String) (v : Nat × Nat)
    (limit window t : Nat) (hne : act2 ≠ action) :
    (check_rate_limit [((ip, action), v)] ip act2 limit window t).1 = true := by
  unfold check_rate_limit redis_get
  have hlook : redisLookup [((ip, action), v)] (ip, act2) = none := by
    simp [redisLookup, Prod.ext_iff, hne]
  simp [hlook]

/-- C9: with `limit = 5` and `window = 60`, five calls on a fresh
(client, action) counter at non-decreasing instants within the window are all
allowed, the sixth call to the same action is rejected without touching the
counter, and a sixth call by the same client to a different action is
allowed. -/
theorem rate_limit_c9 (ip action act2 : String) (t1 t2 t3 t4 t5 t6 : Nat)
    (h12 : t1 ≤ t2) (h23 : t2 ≤ t3) (h34 : t3 ≤ t4) (h45 : t4 ≤ t5) (h56 : t5 ≤ t6)
    (hw : t6 < t1 + 60) (hne : act2 ≠ action) :
    check_rate_limit [] ip action 5 60 t1
        = (true, [((ip, action), (1, t1 + 60))]) ∧
    check_rate_limit [((ip, action), (1, t1 + 60))] ip action 5 60 t2
        = (true, [((ip, action), (2, t2 + 60))]) ∧
    check_rate_limit [((ip, action), (2, t2 + 60))] ip action 5 60 t3
        = (true, [((ip, action), (3, t3 + 60))]) ∧
    check_rate_limit [((ip, action), (3, t3 + 60))] ip action 5 60 t4
        = (true, [((ip, action), (4, t4 + 60))]) ∧
    check_rate_limit [((ip, action), (4, t4 + 60))] ip action 5 60 t5
        = (true, [((ip, action), (5, t5 + 60))]) ∧
    check_rate_limit [((ip, action), (5, t5 + 60))] ip action 5 60 t6
        = (false, [((ip, action), (5, t5 + 60))]) ∧
    (check_rate_limit [((ip, action), (5, t5 + 60))] ip act2 5 60 t6).1 = true := by
  refine ⟨rfl,
    check_rate_limit_live ip action 1 (t1 + 60) 5 60 t2 (by omega) (by omega),
    check_rate_limit_live ip action 2 (t2 + 60) 5 60 t3 (by omega) (by omega),
    check_rate_limit_live ip action 3 (t3 + 60) 5 60 t4 (by omega) (by omega),
    check_rate_limit_live ip action 4 (t4 + 60) 5 60 t5 (by omega) (by omega),
    check_rate_limit_reject ip action 5 (t5 + 60) 5 60 t6 (by omega) (by omega),
    check_rate_limit_fresh_action ip action act2 (5, t5 + 60) 5 60 t6 hne⟩

theorem rate_limit_c9_witness :
    (0 ≤ 0 ∧ ("other" : String) ≠ "create_goal") ∧
    (check_rate_limit [] "1.2.3.4" "create_goal" 5 60 0
        = (true, [(("1.2.3.4", "create_goal"), (1, 60))]) ∧
    check_rate_limit [(("1.2.3.4", "create_goal"), (1, 60))] "1.2.3.4" "create_goal" 5 60 0
        = (true, [(("1.2.3.4", "create_goal"), (2, 60))]) ∧
    check_rate_limit [(("1.2.3.4", "create_goal"), (2, 60))] "1.2.3.4" "create_goal" 5 60 0
        = (true, [(("1.2.3.4", "create_goal"), (3, 60))]) ∧
    check_rate_limit [(("1.2.3.4", "create_goal"), (3, 60))] "1.2.3.4" "create_goal" 5 60 0
        = (true, [(("1.2.3.4", "create_goal"), (4, 60))]) ∧
    check_rate_limit [(("1.2.3.4", "create_goal"), (4, 60))] "1.2.3.4" "create_goal" 5 60 0
        = (true, [(("1.2.3.4", "create_goal"), (5, 60))]) ∧
    check_rate_limit [(("1.2.3.4", "create_goal"), (5, 60))] "1.2.3.4" "create_goal" 5 60 0
        = (false, [(("1.2.3.4", "create_goal"), (5, 60))]) ∧
    (check_rate_limit [(("1.2.3.4", "create_goal"), (5, 60))] "1.2.3.4" "other" 5 60 0).1
        = true) :=
  ⟨⟨by decide, by decide⟩,
   rate_limit_c9 "1.2.3.4" "create_goal" "other" 0 0 0 0 0 0
     (by decide) (by decide) (by decide) (by decide) (by decide) (by decide) (by decide)⟩

theorem checkLevelDocs_eq_none (ls : List RoadmapLevelDoc) (i : Nat) :
    checkLevelDocs ls i = none ↔ ∀ ld ∈ ls, levelDocMissingKeys ld = [] := by
  induction ls generalizing i with
  | nil => simp [checkLevelDocs]
  | cons ld rest ih =>
      by_cases hm : levelDocMissingKeys ld = []
      · simp [checkLevelDocs, hm, ih]
      · simp [checkLevelDocs, hm]

theorem validate_roadmap_ok_levels (d : RoadmapDoc) (ro : RoadmapObjDoc)
    (docLevels : List RoadmapLevelDoc)
    (hv : validate_roadmap_data d = Except.ok d)
    (hro : d.roadmap? = some ro) (hl : ro.levels? = some docLevels) :
    docLevels ≠ [] ∧ ∀ ld ∈ docLevels, levelDocMissingKeys ld = [] := by
  unfold validate_roadmap_data at hv
  rw [hro] at hv
  simp only [Option.getD_some, hl, Option.isNone_some] at hv
  split at hv
  · simp at hv
  · split at hv
    · simp at hv
    · split at hv
      · simp at hv
      · split at hv
        · simp at hv
        · split at hv
          · simp at hv
          · rename_i hnotempty
            split at hv
            · simp at hv
            · rename_i hchk
              refine ⟨?_, (checkLevelDocs_eq_none docLevels 1).mp hchk⟩
              intro he
              rw [he] at hnotempty
              simp at hnotempty

theorem levelDocMissingKeys_nil_order {ld : RoadmapLevelDoc}
    (h : levelDocMissingKeys ld = []) : ld.order?.isSome := by
  unfold levelDocMissingKeys at h
  cases ho : ld.order? with
  | none => rw [ho] at h; simp at h
  | some _ => simp

theorem create_goal_levels_from_orders (idx : Nat) (ls : List RoadmapLevelDoc) :
    (create_goal_levels_from idx ls).map Level.order
      = ls.map (fun ld => ld.order?.getD 0) := by
  induction ls generalizing idx with
  | nil => rfl
  | cons ld rest ih => simp [create_goal_levels_from, ih]

theorem create_goal_levels_from_status (idx : Nat) (ls : List RoadmapLevelDoc) :
    ∀ l ∈ create_goal_levels_from idx ls,
      (l.status = LevelStatus.unlocked ↔ l.order = 1) := by
  induction ls generalizing idx with
  | nil => intro l hl; simp [create_goal_levels_from] at hl
  | cons ld rest ih =>
      intro l hl
      simp only [create_goal_levels_from, List.mem_cons] at hl
      rcases hl with rfl | hl
      · by_cases h1 : ld.order?.getD 0 = 1 <;> simp [h1]
      · exact ih _ l hl

/-- C4 counterexample: the roadmap document `c4Doc` with level orders [1, 3]
passes `generate_roadmap` validation, so goal creation persists a roadmap
whose order sequence has a gap — it is not the contiguous 1..N = [1, 2]. -/
theorem create_goal_orders_gap_c4 :
    validate_roadmap_data c4Doc = Except.ok c4Doc ∧
    (create_goal_levels [c4LevelA, c4LevelB]).map Level.order = [1, 3] ∧
    ([1, 3] : List Nat) ≠ [1, 2] ∧
    (create_goal_levels [c4LevelA, c4LevelB]).map Level.status
      = [LevelStatus.unlocked, LevelStatus.locked] :=
  ⟨by rfl, by rfl, by decide, by rfl⟩

/-- C4 (amended): for every document accepted by validation, goal creation
persists a non-empty list with one level per document entry, each level's
`order` is exactly the document's (present) order value — validation does not
force the orders to be the contiguous sequence 1..N — and a created level's
status is `unlocked` exactly when its order equals 1, `locked` otherwise. -/
theorem create_goal_levels_amended_c4 (d : RoadmapDoc) (ro : RoadmapObjDoc)
    (docLevels : List RoadmapLevelDoc)
    (hv : validate_roadmap_data d = Except.ok d)
    (hro : d.roadmap? = some ro) (hl : ro.levels? = some docLevels) :
    docLevels ≠ [] ∧
    (∀ ld ∈ docLevels, ld.order?.isSome) ∧
    (create_goal_levels docLevels).map Level.order
        = docLevels.map (fun ld => ld.order?.getD 0) ∧
    ∀ l ∈ create_goal_levels docLevels,
      (l.status = LevelStatus.unlocked ↔ l.order = 1) := by
  obtain ⟨hne, hkeys⟩ := validate_roadmap_ok_levels d ro docLevels hv hro hl
  exact ⟨hne, fun ld hld => levelDocMissingKeys_nil_order (hkeys ld hld),
    create_goal_levels_from_orders 1 docLevels,
    create_goal_levels_from_status 1 docLevels⟩

theorem create_goal_levels_amended_c4_witness :
    validate_roadmap_data c4Doc = Except.ok c4Doc ∧
    (([c4LevelA, c4LevelB] : List RoadmapLevelDoc) ≠ [] ∧
     (∀ ld ∈ ([c4LevelA, c4LevelB] : List RoadmapLevelDoc), ld.order?.isSome) ∧
     (create_goal_levels [c4LevelA, c4LevelB]).map Level.order
        = [c4LevelA, c4LevelB].map (fun ld => ld.order?.getD 0) ∧
     ∀ l ∈ create_goal_levels [c4LevelA, c4LevelB],
       (l.status = LevelStatus.unlocked ↔ l.order = 1)) :=
  ⟨by rfl,
   create_goal_levels_amended_c4 c4Doc
     { name? := some "X path", levels? := some [c4LevelA, c4LevelB] }
     [c4LevelA, c4LevelB] (by rfl) (by rfl) (by rfl)⟩

theorem checkQuestionDocs_eq_none (qs : List QuestionDoc) (i : Nat) :
    checkQuestionDocs qs i = none ↔
      ∀ q ∈ qs, questionMissingKeys q = [] ∧ (q.options?.getD []).length = 4 := by
  induction qs generalizing i with
  | nil => simp [checkQuestionDocs]
  | cons q rest ih =>
      by_cases hm : questionMissingKeys q = []
      · by_cases ho : (q.options?.getD []).length = 4
        · simp [checkQuestionDocs, hm, ho, ih]
        · simp [checkQuestionDocs, hm, ho]
      · simp [checkQuestionDocs, hm]

theorem questionMissingKeys_nil_iff (q : QuestionDoc) :
    questionMissingKeys q = [] ↔
      q.id?.isSome ∧ q.question?.isSome ∧ q.options?.isSome ∧
        q.correct_answer?.isSome := by
  unfold questionMissingKeys
  cases q.id? <;> cases q.question? <;> cases q.options? <;> cases q.correct_answer? <;> simp

theorem question_ok_iff (q : QuestionDoc) :
    (questionMissingKeys q = [] ∧ (q.options?.getD []).length = 4) ↔
      (q.id?.isSome ∧ q.question?.isSome ∧ q.correct_answer?.isSome ∧
        ∃ os, q.options? = some os ∧ os.length = 4) := by
  rw [questionMissingKeys_nil_iff]
  cases ho : q.options? with
  | none => simp
  | some os =>
      simp only [Option.isSome_some, Option.some.injEq, true_and]
      constructor
      · rintro ⟨⟨hi, hq, hc⟩, hlen⟩
        exact ⟨hi, hq, hc, os, rfl, by simpa using hlen⟩
      · rintro ⟨hi, hq, hc, os', he, hlen⟩
        cases he
        exact ⟨⟨hi, hq, hc⟩, by simpa using hlen⟩

/-- C5 counterexample: the quiz document `c5Doc` is accepted by
`generate_quiz_for_level` validation although its single question's
`correct_answer` "Z" matches none of the four options' labels A-D. -/
theorem quiz_validation_accepts_mismatch_c5 :
    validate_quiz_data c5Doc = Except.ok c5Doc ∧
    c5Question.correct_answer? = some "Z" ∧
    c5Options.map QuizOptionDoc.value = ["A", "B", "C", "D"] ∧
    ("Z" : String) ∉ ["A", "B", "C", "D"] :=
  ⟨by rfl, by rfl, by rfl, by decide⟩

/-- C5 (amended): quiz-document validation accepts a response exactly when it
carries a non-empty `questions` list and every question has `id`, `question`,
`correct_answer` present and an `options` list of exactly four entries; the
`correct_answer` is never compared against the options' labels. -/
theorem validate_quiz_amended_c5 (d : QuizDoc) :
    validate_quiz_data d = Except.ok d ↔
      ∃ qs, d.questions? = some qs ∧ qs ≠ [] ∧
        ∀ q ∈ qs, q.id?.isSome ∧ q.question?.isSome ∧ q.correct_answer?.isSome ∧
          ∃ os, q.options? = some os ∧ os.length = 4 := by
  unfold validate_quiz_data
  cases hq : d.questions? with
  | none => simp
  | some qs =>
      by_cases hlen : qs.length = 0
      · rw [List.length_eq_zero] at hlen
        subst hlen
        simp
      · cases hchk : checkQuestionDocs qs 1 with
        | some err =>
            simp only [if_neg hlen, hchk, reduceCtorEq, false_iff, Option.some.injEq]
            rintro ⟨qs', he, -, hall⟩
            cases he
            have hnone : checkQuestionDocs qs 1 = none :=
              (checkQuestionDocs_eq_none qs 1).mpr
                (fun q hq' => (question_ok_iff q).mpr (hall q hq'))
            rw [hnone] at hchk
            cases hchk
        | none =>
            simp only [if_neg hlen, hchk, Option.some.injEq]
            constructor
            · exact fun _ => ⟨qs, rfl, fun he => hlen (by rw [he]; rfl),
                fun q hq' => (question_ok_iff q).mp
                  ((checkQuestionDocs_eq_none qs 1).mp hchk q hq')⟩
            · exact fun _ => trivial

end QuestPath
